import Mathlib

/-!
Verification of the lightcontrol services (`service/timers.py`,
`service/programs.py`, `service/control.py`) against their specification.

The embedding is shallow: each Python function that the claims touch is
translated into an executable Lean definition over explicit state.

Conventions of the embedding:
* Instants are naturals counting microseconds since an epoch whose day 0 is
  a Monday (so `weekday = day % 7`, matching Python's `datetime.weekday()`
  with 0 = Monday); the concrete test instants use 2016-03-28 (a Monday)
  as day 0.
* The Redis key/value store is an association list from a structured key
  type to strings; Python/redis stringification of the stored values
  (`str(True) = "True"`, `str(50) = "50"`) is applied at the write sites,
  exactly as redis-py does.
* Calls to the LED driver and messages published on the pub/sub channels
  are recorded in an event list in execution order.
-/

namespace Lightcontrol

/-! ## Timers (`service/timers.py`, class `LightTimers`) -/

/-- Per-group timer state: `timer` is the identifier of the timer object
stored in `self.timers` (if any), `expiry` the absolute expiry instant
recorded in `self.timers_length`. -/
structure TimerState where
  timer : Option Nat
  expiry : Option Nat
  deriving DecidableEq, Repr

/-- Observable actions of `LightTimers.start_timer`: the published
`auto-triggered` control command, timer cancellations and newly armed
timers. -/
inductive TimerEvent where
  | publishAutoTriggered (group : Nat)
  | cancelled (group : Nat) (id : Nat)
  | armed (group : Nat) (id : Nat) (length : Nat)
  deriving DecidableEq, Repr

/-- `LightTimers.start_timer(group_id, length, force=...)` (timers.py lines
44-62): always publish an `auto-triggered` command; if a timer expiry is
recorded for the group and (not force) and the recorded expiry is strictly
later than `now + length`, skip; otherwise cancel any existing timer and arm
a fresh one (`freshId`), recording the new absolute expiry.  Times are
abstract instants (the code uses `datetime.datetime.now()`); `now` is the
instant of the call. -/
def start_timer (group : Nat) (ts : TimerState) (now length : Nat)
    (force : Bool) (freshId : Nat) : TimerState × List TimerEvent :=
  let pub := [TimerEvent.publishAutoTriggered group]
  let arm : TimerState × List TimerEvent :=
    let cancels := match ts.timer with
      | some id => [TimerEvent.cancelled group id]
      | none => []
    (⟨some freshId, some (now + length)⟩,
      pub ++ cancels ++ [TimerEvent.armed group freshId length])
  match ts.expiry with
  | some current_timer_expire_time =>
      if force = false ∧ current_timer_expire_time > now + length then
        (ts, pub)
      else arm
  | none => arm

/-- The per-group timer table of `LightTimers` (`self.timers` and
`self.timers_length` keyed by group id; absent groups have no timer and no
recorded expiry). -/
structure TimersTable where
  tbl : List (Nat × TimerState)
  deriving DecidableEq, Repr

def TimersTable.get (t : TimersTable) (g : Nat) : TimerState :=
  ((t.tbl.find? (fun p => p.1 = g)).map (·.2)).getD ⟨none, none⟩

def TimersTable.set (t : TimersTable) (g : Nat) (s : TimerState) : TimersTable :=
  ⟨(g, s) :: t.tbl.filter (fun p => ¬ p.1 = g)⟩

/-- A message on the `lightcontrol-timer-pubsub` channel
(`{"group": .., "duration": .., "force": ..}`, the last two optional). -/
structure TimerMsg where
  group : Nat
  duration : Option Nat
  force : Option Bool
  deriving DecidableEq, Repr

/-- Timer length resolution in `LightTimers.run` (timers.py lines 77-87):
the message's `duration` if present, else the stored
`lightcontrol-timer-length`, else 120. -/
def resolve_timer_length (storeLength : Option Nat) (msg : TimerMsg) : Nat :=
  match msg.duration with
  | some d => d
  | none =>
      match storeLength with
      | some l => l
      | none => 120

/-- Handling of one message in `LightTimers.run` (timers.py lines 88-92):
group 0 fans out to groups 1..4 calling `start_timer` WITHOUT passing the
message's force flag (so `force` defaults to `False`); any other group gets
a single `start_timer` with `force=data.get("force", False)`.  `freshIds`
supplies the identifier of the timer object a call would arm for each
group. -/
def handle_timer_message (t : TimersTable) (storeLength : Option Nat)
    (msg : TimerMsg) (now : Nat) (freshIds : Nat → Nat) :
    TimersTable × List TimerEvent :=
  let len := resolve_timer_length storeLength msg
  if msg.group = 0 then
    let r1 := start_timer 1 (t.get 1) now len false (freshIds 1)
    let t1 := t.set 1 r1.1
    let r2 := start_timer 2 (t1.get 2) now len false (freshIds 2)
    let t2 := t1.set 2 r2.1
    let r3 := start_timer 3 (t2.get 3) now len false (freshIds 3)
    let t3 := t2.set 3 r3.1
    let r4 := start_timer 4 (t3.get 4) now len false (freshIds 4)
    (t3.set 4 r4.1, r1.2 ++ r2.2 ++ r3.2 ++ r4.2)
  else
    let r := start_timer msg.group (t.get msg.group) now len
      (msg.force.getD false) (freshIds msg.group)
    (t.set msg.group r.1, r.2)

/-- `LightPrograms.create_morning_program_timer` (programs.py lines
139-146) publishes a timer message with group 0 and, via
`create_morning_program_timer(program.duration, force=True)` at line 233,
`force: true`. -/
def create_morning_program_timer_msg (length : Nat) : TimerMsg :=
  ⟨0, some length, some true⟩

/-! ## Programs (`service/programs.py`, class `LightProgram`) -/

/-- `period` of a program ("weekday" / "weekend"). -/
inductive Period where
  | weekday
  | weekend
  deriving DecidableEq, Repr

/-- `tod` (time of day) of a program ("morning" / "evening"). -/
inductive Tod where
  | morning
  | evening
  deriving DecidableEq, Repr

/-- A `LightProgram`.  `start_at` is the `"%H:%M"` string of the source
already parsed into minutes of the day (so `"08:15"` is 495); `duration`
is in seconds. -/
structure LightProgram where
  start_at : Nat
  duration : Nat
  brightness : Option Nat
  period : Period
  tod : Tod
  deriving DecidableEq, Repr

def usecPerSec : Nat := 1000000

def usecPerDay : Nat := 86400 * usecPerSec

/-- The loop body of `LightProgram.calc_days_to` (programs.py lines 34-39):
`p` counts iterations done so far, `cur` is the mutated `current_day`,
`fuel` the iterations left of `range(0, 7)`. -/
def calc_days_to_fuel : Nat → Nat → Nat → List Nat → Option Nat
  | 0, _, _, _ => none
  | fuel + 1, p, cur, dest_days =>
      if cur ∈ dest_days then some p
      else calc_days_to_fuel fuel (p + 1) ((cur + 1) % 7) dest_days

/-- `LightProgram.calc_days_to(current_day, dest_days)`: iterate `p` over
`range(0, 7)`, returning `p` as soon as `current_day` (stepped mod 7 each
round) is in `dest_days`; `None` when the loop exhausts. -/
def calc_days_to (current_day : Nat) (dest_days : List Nat) : Option Nat :=
  calc_days_to_fuel 7 0 current_day dest_days

/-- The weekday sets hard-coded in `LightProgram.get_start_end`
(programs.py lines 55-64), selected by `(tod, period)`. -/
def dest_days_for (tod : Tod) (period : Period) : List Nat :=
  match tod, period with
  | .morning, .weekend => [5, 6]
  | .morning, .weekday => [0, 1, 2, 3, 4]
  | .evening, .weekend => [4, 5]
  | .evening, .weekday => [0, 1, 2, 3, 6]

/-- `now.date()` as a day count since the epoch. -/
def dayOf (now : Nat) : Nat := now / usecPerDay

/-- `now.weekday()` (0 = Monday .. 6 = Sunday): day 0 of the epoch is a
Monday. -/
def weekdayOf (now : Nat) : Nat := dayOf now % 7

/-- `start_at_datetime = datetime.combine(now.date(), start_at_time)` of
`get_start_end`: today's naive program start. -/
def todayStart (p : LightProgram) (now : Nat) : Nat :=
  dayOf now * usecPerDay + p.start_at * 60 * usecPerSec

/-- `end_at_datetime = start_at_datetime + timedelta(seconds=duration)`:
today's naive program end. -/
def todayEnd (p : LightProgram) (now : Nat) : Nat :=
  todayStart p now + p.duration * usecPerSec

/-- `LightProgram.get_start_end(now, advance)` (programs.py lines 41-70).
`now` is microseconds since the epoch (day 0 = Monday); the result is
`none` exactly when `calc_days_to` returns `None` (in Python that value
would then crash the subsequent arithmetic). -/
def get_start_end (p : LightProgram) (now : Nat) (advance : Bool) :
    Option (Nat × Nat) :=
  let weekday := weekdayOf now
  let start_at_datetime := todayStart p now
  let end_at_datetime := todayEnd p now
  if advance then
    let not_today := now > end_at_datetime
    let weekday1 := if not_today then (weekday + 1) % 7 else weekday
    match calc_days_to weekday1 (dest_days_for p.tod p.period) with
    | none => none
    | some pd =>
        let plus_days := if not_today then pd + 1 else pd
        some (start_at_datetime + plus_days * usecPerDay,
          end_at_datetime + plus_days * usecPerDay)
  else
    some (start_at_datetime, end_at_datetime)

def start_datetime (p : LightProgram) (now : Nat) (advance : Bool) :
    Option Nat :=
  (get_start_end p now advance).map (·.1)

def end_datetime (p : LightProgram) (now : Nat) (advance : Bool) :
    Option Nat :=
  (get_start_end p now advance).map (·.2)

/-- `LightProgram.percent_done(now)` (programs.py lines 78-83):
`None` when `start > now or now > end` (advanced window), else
`(now - start).total_seconds() / duration` as an exact rational. -/
def percent_done (p : LightProgram) (now : Nat) : Option ℚ :=
  match start_datetime p now true, end_datetime p now true with
  | some start, some stop =>
      if start > now ∨ now > stop then none
      else some ((((now : ℚ) - (start : ℚ)) / (usecPerSec : ℚ)) / (p.duration : ℚ))
  | _, _ => none

/-- The morning-weekday program of the unit tests and of
`set_default_programs`: `start_at="08:15"`, `duration=3600`,
`brightness=100`. -/
def morningWeekdayProgram : LightProgram :=
  ⟨8 * 60 + 15, 3600, some 100, .weekday, .morning⟩

/-! ## Control service (`service/control.py`, class `LightControlService`) -/

/-- The structured form of the Redis keys the control service reads and
writes; each constructor stands for one key-format string of the source
(the formats are pairwise distinct, so this is injective). -/
inductive Key where
  /-- `lightcontrol-state-{g}-on` -/
  | onKey (g : Nat)
  /-- `lightcontrol-state-{g}-color` -/
  | colorKey (g : Nat)
  /-- `lightcontrol-state-{g}-white_brightness` -/
  | whiteBrightness (g : Nat)
  /-- `lightcontrol-state-{g}-rgb_brightness` -/
  | rgbBrightness (g : Nat)
  /-- `lightcontrol-state-{g}-auto` -/
  | autoMode (g : Nat)
  /-- `lightcontrol-state-{g}-user-override` -/
  | userOverride (g : Nat)
  /-- `lightcontrol-group-{g}-disabled-night` -/
  | disabledNight (g : Nat)
  /-- `lightcontrol-group-{g}-name` -/
  | groupName (g : Nat)
  /-- `lightcontrol-default-color` -/
  | defaultColor
  /-- `lightcontrol-default-brightness` -/
  | defaultBrightness
  deriving DecidableEq, Repr

/-- The Redis string store, as an association list (later writes shadow
earlier ones; `set` removes the shadowed entry). -/
structure Store where
  kv : List (Key × String)
  deriving DecidableEq, Repr

def Store.get (s : Store) (k : Key) : Option String :=
  (s.kv.find? (fun p => p.1 = k)).map (·.2)

def Store.set (s : Store) (k : Key) (v : String) : Store :=
  ⟨(k, v) :: s.kv.filter (fun p => ¬ p.1 = k)⟩

def Store.empty : Store := ⟨[]⟩

/-- Calls made on the `ledcontroller.LedController` driver. -/
inductive DriverCall where
  /-- `led.on(group)` -/
  | ledOn (g : Nat)
  /-- `led.off(group)` -/
  | ledOff (g : Nat)
  /-- `led.set_color(color, group)` -/
  | setColorCall (c : String) (g : Nat)
  /-- `led.set_brightness(brightness, group)` -/
  | setBrightnessCall (b : Int) (g : Nat)
  deriving DecidableEq, Repr

/-- The payload of `get_lightgroup` (control.py lines 120-135), broadcast
on `home:broadcast:generic`. -/
structure LightGroupData where
  isOn : Bool
  name : Option String
  color : Option String
  current_brightness : Option String
  id : Nat
  deriving DecidableEq, Repr

/-- Externally observable actions of the control service: driver calls and
state broadcasts, in execution order. -/
inductive Event where
  | driver (c : DriverCall)
  | broadcast (g : Nat) (data : LightGroupData)
  deriving DecidableEq, Repr

def driverCalls (evs : List Event) : List DriverCall :=
  evs.filterMap (fun e => match e with
    | .driver c => some c
    | _ => none)

def countDriver (evs : List Event) : Nat :=
  (evs.filter (fun e => match e with
    | .driver _ => true
    | _ => false)).length

def countBroadcast (evs : List Event) : Nat :=
  (evs.filter (fun e => match e with
    | .broadcast _ _ => true
    | _ => false)).length

/-- `LightControlService.get_lightgroup(group_id)` (control.py lines
120-135): the brightness slot is `rgb` whenever the stored color differs
from `"white"` (including when no color is stored). -/
def get_lightgroup (st : Store) (g : Nat) : LightGroupData :=
  let color := st.get (Key.colorKey g)
  let bKey := if color = some "white" then Key.whiteBrightness g
    else Key.rgbBrightness g
  { isOn := st.get (Key.onKey g) = some "true" ∨ st.get (Key.onKey g) = some "True"
    name := st.get (Key.groupName g)
    color := color
    current_brightness := st.get bKey
    id := g }

/-- `LightControlService.run_operation` (control.py lines 137-153): skip
when the stored value equals the stringified argument and `force` is
false; otherwise call the driver, persist the stringified argument, and
broadcast the recomputed group view. -/
def run_operation (st : Store) (g : Nat) (key : Key) (argS : String)
    (call : DriverCall) (force : Bool) : Store × List Event :=
  if st.get key = some argS ∧ force = false then (st, [])
  else
    let st' := st.set key argS
    (st', [Event.driver call, Event.broadcast g (get_lightgroup st' g)])

/-- `LightControlService.set_color(color, group_id, force=...)`. -/
def set_color (st : Store) (color : String) (g : Nat) (force : Bool) :
    Store × List Event :=
  run_operation st g (Key.colorKey g) color (DriverCall.setColorCall color g) force

/-- The brightness slot selection of `set_brightness` (control.py lines
163-166): the `white_brightness` key when the color is `"white"`, else the
`rgb_brightness` key. -/
def brightness_key (color : String) (g : Nat) : Key :=
  if color = "white" then Key.whiteBrightness g else Key.rgbBrightness g

/-- The brightness clamps of `set_brightness` (control.py lines 167-170):
`if brightness < 5: brightness = 0` then `if brightness > 95:
brightness = 100`. -/
def clamp_brightness (brightness : Int) : Int :=
  let b1 := if brightness < 5 then 0 else brightness
  if b1 > 95 then 100 else b1

/-- `LightControlService.set_brightness(brightness, group_id, force=...)`
(control.py lines 158-171): the slot follows the currently stored color
(white when absent), with the clamps applied. -/
def set_brightness (st : Store) (brightness : Int) (g : Nat) (force : Bool) :
    Store × List Event :=
  let color := (st.get (Key.colorKey g)).getD "white"
  let key := brightness_key color g
  let b2 := clamp_brightness brightness
  run_operation st g key (toString b2) (DriverCall.setBrightnessCall b2 g) force

/-- `LightControlService.set_on(status, group_id, force=...)` (the
`status` argument is unused by the source). -/
def set_on (st : Store) (g : Nat) (force : Bool) : Store × List Event :=
  run_operation st g (Key.onKey g) "True" (DriverCall.ledOn g) force

/-- `LightControlService.set_off(status, group_id, force=...)`. -/
def set_off (st : Store) (g : Nat) (force : Bool) : Store × List Event :=
  run_operation st g (Key.onKey g) "False" (DriverCall.ledOff g) force

/-- `LightControlService.set_auto_mode(group_id, mode)`: stores the Python
boolean, stringified by redis. -/
def set_auto_mode (st : Store) (g : Nat) (mode : Bool) : Store :=
  st.set (Key.autoMode g) (if mode then "True" else "False")

/-- `LightControlService.is_group_on` (control.py lines 65-67): default
`False`; a stored value counts as on unless it is `"False"`. -/
def is_group_on (st : Store) (g : Nat) : Bool :=
  match st.get (Key.onKey g) with
  | none => false
  | some v => decide (¬ v = "False")

/-- `LightControlService.is_group_auto` (control.py lines 69-70): default
`True`; a stored value counts as auto only when it is `"True"`. -/
def is_group_auto (st : Store) (g : Nat) : Bool :=
  match st.get (Key.autoMode g) with
  | none => true
  | some v => decide (v = "True")

/-- `LightControlService.disabled_at_night` (control.py lines 179-180). -/
def disabled_at_night (st : Store) (g : Nat) : Bool :=
  match st.get (Key.disabledNight g) with
  | none => false
  | some v => decide (¬ v = "False" ∧ ¬ v = "false")

/-- `lightcontrol-state-{g}-user-override` read in `program_sync`
(control.py line 98). -/
def user_override (st : Store) (g : Nat) : Bool :=
  match st.get (Key.userOverride g) with
  | none => false
  | some v => decide (¬ v = "False")

/-- `self.get_redis("lightcontrol-default-color", "white")`. -/
def get_default_color (st : Store) : String :=
  (st.get Key.defaultColor).getD "white"

/-- `int(self.get_redis("lightcontrol-default-brightness", 100))`; the
stored value is always a decimal integer string. -/
def get_default_brightness (st : Store) : Int :=
  match st.get Key.defaultBrightness with
  | none => 100
  | some v => (v.toInt?).getD 0

/-- `LightControlService.sync(group_id)` (control.py lines 72-91): forced
re-application of the persisted on/color/brightness (brightness falls back
to 100 when the slot is empty), or forced off. -/
def sync_group (st : Store) (g : Nat) : Store × List Event :=
  if is_group_on st g then
    let r1 := set_on st g true
    let color := (r1.1.get (Key.colorKey g)).getD "white"
    let r2 := set_color r1.1 color g true
    let bKey := brightness_key color g
    let brightness : Int := match r2.1.get bKey with
      | none => 100
      | some v => (v.toInt?).getD 0
    let r3 := set_brightness r2.1 brightness g true
    (r3.1, r1.2 ++ r2.2 ++ r3.2)
  else
    set_off st g true

/-- `LightControlService.program_sync(group_id)` (control.py lines
93-105): no-op when the group is off or user-overridden; else apply the
scheduler defaults, unforced. -/
def program_sync (st : Store) (g : Nat) : Store × List Event :=
  if is_group_on st g = false then (st, [])
  else if user_override st g then (st, [])
  else
    let color := get_default_color st
    let brightness := get_default_brightness st
    let r1 := set_color st color g false
    let r2 := set_brightness r1.1 brightness g false
    (r2.1, r1.2 ++ r2.2)

/-- `LightControlService.run_auto_triggered(group_id)` (control.py lines
110-118): no-op when the group is not in auto mode; else turn on and apply
the scheduler defaults, unforced. -/
def run_auto_triggered (st : Store) (g : Nat) : Store × List Event :=
  if is_group_auto st g = false then (st, [])
  else
    let color := get_default_color st
    let brightness := get_default_brightness st
    let r1 := set_on st g false
    let r2 := set_color r1.1 color g false
    let r3 := set_brightness r2.1 brightness g false
    (r3.1, r1.2 ++ r2.2 ++ r3.2)

/-- The `night` branch of `process_command` (control.py lines 231-239):
turn on, then (when the stored color is not red) write white color and
zero brightness, then write red color and zero brightness — all without
`force`. -/
def night_command (st : Store) (g : Nat) : Store × List Event :=
  let r1 := set_on st g false
  let color := (r1.1.get (Key.colorKey g)).getD "white"
  if ¬ color = "red" then
    let r2 := set_color r1.1 "white" g false
    let r3 := set_brightness r2.1 0 g false
    let r4 := set_color r3.1 "red" g false
    let r5 := set_brightness r4.1 0 g false
    (r5.1, r1.2 ++ r2.2 ++ r3.2 ++ r4.2 ++ r5.2)
  else
    let r4 := set_color r1.1 "red" g false
    let r5 := set_brightness r4.1 0 g false
    (r5.1, r1.2 ++ r4.2 ++ r5.2)

/-- A message on `lightcontrol-control-pubsub`
(`LightControlCommand`, control.py lines 19-28). -/
structure Command where
  command : String
  group : Nat
  source : String
  brightness : Option Int
  color : Option String
  deriving DecidableEq, Repr

/-- The command dispatch of `process_command` (control.py lines 208-240);
an unknown command is logged and dropped.  A missing `color`/`brightness`
field is Python `None`, which `set_color` stringifies to `"None"` and
which compares `< 5` in `set_brightness` (Python 2), hence the defaults. -/
def dispatch (st : Store) (c : Command) : Store × List Event :=
  if c.command = "sync" then sync_group st c.group
  else if c.command = "on" then set_on st c.group false
  else if c.command = "off" then
    let r1 := set_off st c.group false
    (set_auto_mode r1.1 c.group true, r1.2)
  else if c.command = "set_color" then
    set_color st (c.color.getD "None") c.group false
  else if c.command = "set_brightness" then
    set_brightness st (c.brightness.getD 0) c.group false
  else if c.command = "auto-triggered" then run_auto_triggered st c.group
  else if c.command = "program-sync" then program_sync st c.group
  else if c.command = "night" then night_command st c.group
  else (st, [])

/-- `process_command` for a single (non-zero) group (control.py lines
189-240).  `night` is the value of `self.programs.is_night(datetime.now())`
at the moment of the call, passed as a parameter. -/
def process_one (st : Store) (c : Command) (night : Bool) : Store × List Event :=
  if (c.command = "off" ∨ c.command = "set_color" ∨ c.command = "set_brightness")
      ∧ ¬ c.source = "manual" ∧ is_group_auto st c.group = false then
    (st, [])
  else if (c.command = "set_color" ∨ c.command = "set_brightness"
        ∨ c.command = "on" ∨ c.command = "night" ∨ c.command = "auto-triggered")
      ∧ c.source = "manual" then
    dispatch (set_auto_mode st c.group false) c
  else if (c.command = "set_color" ∨ c.command = "set_brightness"
        ∨ c.command = "on" ∨ c.command = "night" ∨ c.command = "auto-triggered")
      ∧ c.source = "trigger" ∧ night = true ∧ disabled_at_night st c.group = true then
    (st, [])
  else
    dispatch st c

/-- `LightControlService.process_command(data)` (control.py lines
182-187): group 0 fans out to groups 1..4 (`range(1, 5)`), rewriting the
group field; otherwise process the single group. -/
def process_command (st : Store) (c : Command) (night : Bool) :
    Store × List Event :=
  if c.group = 0 then
    let r1 := process_one st { c with group := 1 } night
    let r2 := process_one r1.1 { c with group := 2 } night
    let r3 := process_one r2.1 { c with group := 3 } night
    let r4 := process_one r3.1 { c with group := 4 } night
    (r4.1, r1.2 ++ r2.2 ++ r3.2 ++ r4.2)
  else
    process_one st c night

/-! ## Store lemmas -/

theorem Store.get_set_self (s : Store) (k : Key) (v : String) :
    (s.set k v).get k = some v := by
  simp [Store.get, Store.set, List.find?]

theorem find?_filter_ne (l : List (Key × String)) (k k' : Key) (h : ¬ k' = k) :
    (l.filter (fun p => ¬ p.1 = k)).find? (fun p => p.1 = k') =
      l.find? (fun p => p.1 = k') := by
  induction l with
  | nil => rfl
  | cons a t ih =>
      rw [List.filter_cons]
      by_cases ha : a.1 = k
      · have ha' : ¬ a.1 = k' := fun hk => h (by rw [← hk, ha])
        rw [if_neg (by simpa using ha)]
        rw [List.find?_cons_of_neg _ (by simpa using ha')]
        exact ih
      · rw [if_pos (by simpa using ha)]
        by_cases hk' : a.1 = k'
        · rw [List.find?_cons_of_pos _ (by simpa using hk'),
            List.find?_cons_of_pos _ (by simpa using hk')]
        · rw [List.find?_cons_of_neg _ (by simpa using hk'),
            List.find?_cons_of_neg _ (by simpa using hk')]
          exact ih

theorem Store.get_set_other (s : Store) (k k' : Key) (v : String)
    (h : ¬ k' = k) : (s.set k v).get k' = s.get k' := by
  show (List.find? (fun p => p.1 = k') ((k, v) ::
      s.kv.filter (fun p => ¬ p.1 = k))).map (·.2) =
    (List.find? (fun p => p.1 = k') s.kv).map (·.2)
  rw [List.find?_cons_of_neg _ (by simpa using fun hk => h hk.symm)]
  rw [find?_filter_ne s.kv k k' h]

/-! ## `run_operation` lemmas -/

/-- After `run_operation`, the operated key holds the stringified
argument (either it already did and the operation skipped, or it was just
written). -/
theorem run_operation_get_self (st : Store) (g : Nat) (key : Key)
    (argS : String) (call : DriverCall) (force : Bool) :
    ((run_operation st g key argS call force).1).get key = some argS := by
  unfold run_operation
  split
  · next h => exact h.1
  · exact Store.get_set_self st key argS

/-- `run_operation` writes no key other than its own. -/
theorem run_operation_get_other (st : Store) (g : Nat) (key : Key)
    (argS : String) (call : DriverCall) (force : Bool) (k : Key)
    (h : ¬ k = key) :
    ((run_operation st g key argS call force).1).get k = st.get k := by
  unfold run_operation
  split
  · rfl
  · exact Store.get_set_other st key k argS h

/-- When the stored value already equals the argument and `force` is off,
`run_operation` is a strict no-op. -/
theorem run_operation_skip (st : Store) (g : Nat) (key : Key)
    (argS : String) (call : DriverCall) (h : st.get key = some argS) :
    run_operation st g key argS call false = (st, []) := by
  unfold run_operation
  rw [if_pos ⟨h, rfl⟩]

/-- When the stored value differs from the argument (or is absent), the
unforced `run_operation` performs the driver call, the write, and one
broadcast. -/
theorem run_operation_apply (st : Store) (g : Nat) (key : Key)
    (argS : String) (call : DriverCall) (h : ¬ st.get key = some argS) :
    run_operation st g key argS call false =
      (st.set key argS,
        [Event.driver call,
          Event.broadcast g (get_lightgroup (st.set key argS) g)]) := by
  unfold run_operation
  rw [if_neg (fun hc => h hc.1)]

/-! ## `calc_days_to` lemmas -/

theorem calc_days_to_fuel_sound (fuel : Nat) :
    ∀ (p cur : Nat) (dest : List Nat) (d : Nat), cur < 7 →
      calc_days_to_fuel fuel p cur dest = some d →
      p ≤ d ∧ d - p < fuel ∧ ((cur + (d - p)) % 7 ∈ dest) ∧
        ∀ q, q < d - p → ¬ ((cur + q) % 7 ∈ dest) := by
  induction fuel with
  | zero => intro p cur dest d _ h; exact absurd h (by simp [calc_days_to_fuel])
  | succ fuel ih =>
      intro p cur dest d hcur h
      rw [calc_days_to_fuel] at h
      by_cases hm : cur ∈ dest
      · rw [if_pos hm] at h
        have hd : p = d := by simpa using h
        subst hd
        refine ⟨le_refl p, by omega, ?_, ?_⟩
        · simpa [Nat.mod_eq_of_lt hcur] using hm
        · intro q hq
          omega
      · rw [if_neg hm] at h
        obtain ⟨h1, h2, h3, h4⟩ :=
          ih (p + 1) ((cur + 1) % 7) dest d (Nat.mod_lt _ (by norm_num)) h
        have hle : p + 1 ≤ d := h1
        refine ⟨by omega, by omega, ?_, ?_⟩
        · have he : ((cur + 1) % 7 + (d - (p + 1))) % 7 = (cur + (d - p)) % 7 := by
            omega
          rwa [he] at h3
        · intro q hq
          match q with
          | 0 =>
              simpa [Nat.mod_eq_of_lt hcur] using hm
          | Nat.succ j =>
              have hj : j < d - (p + 1) := by omega
              have he : ((cur + 1) % 7 + j) % 7 = (cur + (j + 1)) % 7 := by
                omega
              have := h4 j hj
              rwa [he] at this

theorem calc_days_to_fuel_none (fuel : Nat) :
    ∀ (p cur : Nat) (dest : List Nat), cur < 7 →
      calc_days_to_fuel fuel p cur dest = none →
      ∀ i, i < fuel → ¬ ((cur + i) % 7 ∈ dest) := by
  induction fuel with
  | zero => intro p cur dest _ _ i hi; omega
  | succ fuel ih =>
      intro p cur dest hcur h i hi
      rw [calc_days_to_fuel] at h
      by_cases hm : cur ∈ dest
      · rw [if_pos hm] at h; exact absurd h (by simp)
      · rw [if_neg hm] at h
        match i with
        | 0 => simpa [Nat.mod_eq_of_lt hcur] using hm
        | Nat.succ j =>
            have he : ((cur + 1) % 7 + j) % 7 = (cur + (j + 1)) % 7 := by omega
            have := ih (p + 1) ((cur + 1) % 7) dest
              (Nat.mod_lt _ (by norm_num)) h j (by omega)
            rwa [he] at this

/-- `calc_days_to` on a weekday below 7 and any of the four hard-coded
weekday sets always succeeds. -/
theorem calc_days_to_dest_isSome (wd : Nat) (hwd : wd < 7) (tod : Tod)
    (period : Period) :
    (calc_days_to wd (dest_days_for tod period)).isSome = true := by
  cases tod <;> cases period <;> interval_cases wd <;> decide

/-! ## Claim C1 — timer debounce -/

/-- C1 counterexample: group 1 has a pending timer (id 7) expiring at
instant 100; an unforced `start_timer` at instant 40 of length 60 computes
the new expiry 100, which is equal to (hence "earlier than or equal to")
the existing one — yet the code cancels the old timer and arms a new one
(id 8), because its skip test `current > new` is strict.  The claim said
such a request leaves the existing timer untouched. -/
theorem C1_counterexample :
    40 + 60 ≤ 100 ∧
    start_timer 1 ⟨some 7, some 100⟩ 40 60 false 8 =
      (⟨some 8, some 100⟩,
        [TimerEvent.publishAutoTriggered 1, TimerEvent.cancelled 1 7,
          TimerEvent.armed 1 8 60]) ∧
    ¬ (start_timer 1 ⟨some 7, some 100⟩ 40 60 false 8).1.timer = some 7 := by
  refine ⟨by norm_num, by decide, by decide⟩

/-- C1 (amended): for a group with a pending timer of recorded absolute
expiry `Told`, an unforced `start_timer` whose new expiry `now + length`
is STRICTLY earlier than `Told` leaves the timer state untouched (only the
`auto-triggered` command is published); if the new expiry is later than
OR EQUAL TO `Told`, or the request is forced, the existing timer is
cancelled and a fresh timer of the requested length is armed, its new
absolute expiry recorded. -/
theorem C1_debounce (g : Nat) (ts : TimerState) (now length : Nat)
    (force : Bool) (freshId Told : Nat) (h : ts.expiry = some Told) :
    (force = false ∧ now + length < Told →
      start_timer g ts now length force freshId =
        (ts, [TimerEvent.publishAutoTriggered g])) ∧
    (force = true ∨ Told ≤ now + length →
      start_timer g ts now length force freshId =
        (⟨some freshId, some (now + length)⟩,
          [TimerEvent.publishAutoTriggered g] ++
            (match ts.timer with
              | some id => [TimerEvent.cancelled g id]
              | none => []) ++
            [TimerEvent.armed g freshId length])) := by
  constructor
  · rintro ⟨hf, hlt⟩
    simp only [start_timer, h]
    rw [if_pos ⟨hf, hlt⟩]
  · intro hc
    simp only [start_timer, h]
    rw [if_neg ?_]
    rintro ⟨hf, hgt⟩
    rcases hc with h1 | h2
    · rw [h1] at hf; exact absurd hf (by norm_num)
    · omega

/-- C1 witness: a pending timer expiring at 100 survives an unforced
request of length 59 made at instant 40 (new expiry 99 < 100). -/
theorem C1_witness :
    start_timer 1 ⟨some 7, some 100⟩ 40 59 false 8 =
      (⟨some 7, some 100⟩, [TimerEvent.publishAutoTriggered 1]) :=
  (C1_debounce 1 ⟨some 7, some 100⟩ 40 59 false 8 100 rfl).1
    ⟨rfl, by norm_num⟩

/-! ## Claim C10 — group-0 timer fan-out drops the force flag -/

/-- C10: a timer-start event for group 0 fans out to the real groups 1..4
through `start_timer` with `force` defaulted to `False` — the message's
force flag (such as the `force=true` of the group-0 event published by
`create_morning_program_timer`) is ignored entirely, so a forced broadcast
is debounced per group as if unforced; for a single-group event the flag
is passed through.  Concretely: with group 1 holding a timer expiring at
1000, the morning program's forced group-0 event (duration 60, now 0) is
debounced away for group 1, while the same request addressed to group 1
directly re-arms its timer. -/
theorem C10_fanout_force (t : TimersTable) (storeLength : Option Nat)
    (dur : Option Nat) (f : Option Bool) (now : Nat) (ids : Nat → Nat)
    (g : Nat) (hg : ¬ g = 0) :
    (handle_timer_message t storeLength ⟨0, dur, f⟩ now ids =
      handle_timer_message t storeLength ⟨0, dur, some false⟩ now ids) ∧
    (handle_timer_message t storeLength ⟨g, dur, f⟩ now ids =
      (t.set g (start_timer g (t.get g) now
          (resolve_timer_length storeLength ⟨g, dur, f⟩) (f.getD false)
          (ids g)).1,
        (start_timer g (t.get g) now
          (resolve_timer_length storeLength ⟨g, dur, f⟩) (f.getD false)
          (ids g)).2)) ∧
    ((handle_timer_message ⟨[(1, ⟨some 5, some 1000⟩)]⟩ none
        (create_morning_program_timer_msg 60) 0 (fun i => i + 10)).1.get 1 =
      ⟨some 5, some 1000⟩) ∧
    ((handle_timer_message ⟨[(1, ⟨some 5, some 1000⟩)]⟩ none
        ⟨1, some 60, some true⟩ 0 (fun i => i + 10)).1.get 1 =
      ⟨some 11, some 60⟩) := by
  refine ⟨rfl, ?_, by decide, by decide⟩
  unfold handle_timer_message
  rw [if_neg hg]

/-- C10 witness: a single-group event (group 2, duration 60, force true)
goes through `start_timer` with the force flag intact. -/
theorem C10_witness :
    handle_timer_message ⟨[]⟩ none ⟨2, some 60, some true⟩ 0 (fun i => i) =
      (TimersTable.set ⟨[]⟩ 2
        (start_timer 2 (TimersTable.get ⟨[]⟩ 2) 0 60 true 2).1,
        (start_timer 2 (TimersTable.get ⟨[]⟩ 2) 0 60 true 2).2) :=
  (C10_fanout_force ⟨[]⟩ none (some 60) (some true) 0 (fun i => i) 2
    (by norm_num)).2.1

/-! ## Window-computation lemmas -/

theorem weekdayOf_lt (now : Nat) : weekdayOf now < 7 :=
  Nat.mod_lt _ (by norm_num)

/-- The advanced window always exists, and it shifts today's naive window
by the `calc_days_to` result (plus one when today's occurrence is over). -/
theorem get_start_end_advance (p : LightProgram) (now : Nat) :
    ∃ d,
      calc_days_to
          (if now > todayEnd p now then (weekdayOf now + 1) % 7 else weekdayOf now)
          (dest_days_for p.tod p.period) = some d ∧
      get_start_end p now true =
        some (todayStart p now + (if now > todayEnd p now then d + 1 else d) * usecPerDay,
          todayEnd p now + (if now > todayEnd p now then d + 1 else d) * usecPerDay) := by
  have hwd :
      (if now > todayEnd p now then (weekdayOf now + 1) % 7 else weekdayOf now) < 7 := by
    split
    · exact Nat.mod_lt _ (by norm_num)
    · exact weekdayOf_lt now
  obtain ⟨d, hd⟩ :=
    Option.isSome_iff_exists.mp (calc_days_to_dest_isSome _ hwd p.tod p.period)
  refine ⟨d, hd, ?_⟩
  simp only [get_start_end, if_true]
  rw [hd]

theorem get_start_end_spread (p : LightProgram) (now s e : Nat)
    (h : get_start_end p now true = some (s, e)) :
    e = s + p.duration * usecPerSec := by
  obtain ⟨d, _, hw⟩ := get_start_end_advance p now
  rw [hw] at h
  simp only [Option.some.injEq, Prod.mk.injEq] at h
  obtain ⟨hs, he⟩ := h
  have ht : todayEnd p now = todayStart p now + p.duration * usecPerSec := rfl
  omega

/-- `percent_done` through a known window. -/
theorem percent_done_eq (p : LightProgram) (now s e : Nat)
    (h : get_start_end p now true = some (s, e)) :
    percent_done p now =
      if s > now ∨ now > e then none
      else some ((((now : ℚ) - (s : ℚ)) / (usecPerSec : ℚ)) / (p.duration : ℚ)) := by
  have hs : start_datetime p now true = some s := by
    unfold start_datetime; rw [h]; rfl
  have he : end_datetime p now true = some e := by
    unfold end_datetime; rw [h]; rfl
  unfold percent_done
  rw [hs, he]

/-! ## Claim C9 — `calc_days_to` minimality and definedness -/

/-- C9: for `current_day < 7`, `calc_days_to` returns the least offset
`d` (0..6) with `(current_day + d) % 7` in `dest_days` when some day of
`dest_days` is reachable within 7 steps, and `None` when none is (for
example the empty set); `get_start_end` itself only ever feeds it the four
non-empty hard-coded weekday sets, for which the advanced window is always
defined. -/
theorem C9_calc_days_to (cd : Nat) (dest : List Nat) :
    (cd < 7 → (∃ i, i < 7 ∧ (cd + i) % 7 ∈ dest) →
      ∃ d, calc_days_to cd dest = some d ∧ d < 7 ∧ ((cd + d) % 7 ∈ dest) ∧
        ∀ q, q < d → ¬ ((cd + q) % 7 ∈ dest)) ∧
    (cd < 7 → (∀ i, i < 7 → ¬ ((cd + i) % 7 ∈ dest)) →
      calc_days_to cd dest = none) ∧
    (∀ (p : LightProgram) (now : Nat),
      ∃ w, get_start_end p now true = some w) := by
  refine ⟨?_, ?_, ?_⟩
  · intro hcd hex
    cases hres : calc_days_to cd dest with
    | none =>
        obtain ⟨i, hi, him⟩ := hex
        exact absurd him (calc_days_to_fuel_none 7 0 cd dest hcd hres i hi)
    | some d =>
        obtain ⟨-, h2, h3, h4⟩ := calc_days_to_fuel_sound 7 0 cd dest d hcd hres
        refine ⟨d, rfl, by omega, by simpa using h3, ?_⟩
        intro q hq
        simpa using h4 q (by omega)
  · intro hcd hall
    cases hres : calc_days_to cd dest with
    | none => rfl
    | some d =>
        obtain ⟨-, h2, h3, -⟩ := calc_days_to_fuel_sound 7 0 cd dest d hcd hres
        exact absurd (by simpa using h3) (hall (d - 0) (by omega))
  · intro p now
    obtain ⟨d, -, hw⟩ := get_start_end_advance p now
    exact ⟨_, hw⟩

/-! ## Claim C2 — the advanced window -/

/-- C2: for every program and instant, the advanced window is today's
naive window (start = date(now) + start_at, end = start + duration)
shifted by the minimal number of days `d` (0..6) that lands the — rolled
forward by one when `now` is already past today's end — weekday in the
program's weekday set, plus one extra day when rolled; and the concrete
`calc_days_to` values and the two morning-weekday windows of the claim. -/
theorem C2_window :
    (∀ (p : LightProgram) (now : Nat),
      ∃ d, d < 7 ∧
        (((if now > todayEnd p now then (weekdayOf now + 1) % 7 else weekdayOf now) + d) % 7
            ∈ dest_days_for p.tod p.period) ∧
        (∀ q, q < d →
          ¬ (((if now > todayEnd p now then (weekdayOf now + 1) % 7 else weekdayOf now) + q) % 7
              ∈ dest_days_for p.tod p.period)) ∧
        get_start_end p now true =
          some (todayStart p now + (if now > todayEnd p now then d + 1 else d) * usecPerDay,
            todayEnd p now + (if now > todayEnd p now then d + 1 else d) * usecPerDay)) ∧
    calc_days_to 6 [0] = some 1 ∧
    calc_days_to 5 [0, 1] = some 2 ∧
    calc_days_to 0 [5, 6] = some 5 ∧
    calc_days_to 2 [0, 1, 2, 3, 4] = some 0 ∧
    get_start_end morningWeekdayProgram 30845000000 true =
      some (29700000000, 33300000000) ∧
    get_start_end morningWeekdayProgram 34445000000 true =
      some (116100000000, 119700000000) := by
  refine ⟨?_, by decide, by decide, by decide, by decide, by decide, by decide⟩
  intro p now
  obtain ⟨d, hd, hw⟩ := get_start_end_advance p now
  have hwd :
      (if now > todayEnd p now then (weekdayOf now + 1) % 7 else weekdayOf now) < 7 := by
    split
    · exact Nat.mod_lt _ (by norm_num)
    · exact weekdayOf_lt now
  obtain ⟨-, h2, h3, h4⟩ := calc_days_to_fuel_sound 7 0 _ _ d hwd hd
  refine ⟨d, by omega, by simpa using h3, ?_, hw⟩
  intro q hq
  simpa using h4 q (by omega)

/-! ## Claim C3 — `percent_done` -/

/-- C3 counterexample: at `now` = exactly the end of the morning-weekday
window (2016-03-28 09:15:00, i.e. 33300000000 µs), `now` is inside the
closed window `[start, end]`, and `percent_done` returns exactly 1 — not
a value in `[0, 1)` as the claim states. -/
theorem C3_counterexample :
    get_start_end morningWeekdayProgram 33300000000 true =
      some (29700000000, 33300000000) ∧
    percent_done morningWeekdayProgram 33300000000 = some 1 ∧
    ¬ ((1 : ℚ) < 1) := by
  refine ⟨by decide, ?_, by norm_num⟩
  rw [percent_done_eq morningWeekdayProgram 33300000000 29700000000 33300000000
    (by decide)]
  norm_num [morningWeekdayProgram, usecPerSec]

/-- C3 (amended): `percent_done` is `none` exactly when `now` lies
outside the closed advanced window `[start, end]`; inside it returns
`(now - start) / duration`, a value in `[0, 1]` that attains 1 exactly at
`now = end`; and the claim's concrete values: ≈ 0.31825 (within 1/100000)
at 2016-03-30 08:34:05.690085, and `none` at 09:34:05.690085 and
06:34:05.690085. -/
theorem C3_percent_done :
    (∀ (p : LightProgram) (now s e : Nat),
      get_start_end p now true = some (s, e) →
      ((percent_done p now = none ↔ (now < s ∨ e < now)) ∧
        (s ≤ now → now ≤ e →
          percent_done p now =
            some ((((now : ℚ) - (s : ℚ)) / (usecPerSec : ℚ)) / (p.duration : ℚ))) ∧
        (0 < p.duration →
          ∀ q : ℚ, percent_done p now = some q →
            0 ≤ q ∧ q ≤ 1 ∧ (q = 1 ↔ now = e)))) ∧
    percent_done morningWeekdayProgram 203645690085 =
      some (1145690085 / 3600000000) ∧
    |(1145690085 / 3600000000 : ℚ) - 31825 / 100000| < 1 / 100000 ∧
    percent_done morningWeekdayProgram 207245690085 = none ∧
    percent_done morningWeekdayProgram 196445690085 = none := by
  refine ⟨?_, ?_, ?_, ?_, ?_⟩
  case refine_2 =>
    rw [percent_done_eq morningWeekdayProgram 203645690085 202500000000
      206100000000 (by decide)]
    norm_num [morningWeekdayProgram, usecPerSec]
  case refine_3 =>
    rw [abs_sub_lt_iff]
    constructor <;> norm_num
  case refine_4 =>
    rw [percent_done_eq morningWeekdayProgram 207245690085 288900000000
      292500000000 (by decide)]
    norm_num
  case refine_5 =>
    rw [percent_done_eq morningWeekdayProgram 196445690085 202500000000
      206100000000 (by decide)]
    norm_num
  case refine_1 =>
    intro p now s e h
    have hspread := get_start_end_spread p now s e h
    have hpe := percent_done_eq p now s e h
    refine ⟨?_, ?_, ?_⟩
    · rw [hpe]
      by_cases hc : s > now ∨ now > e
      · rw [if_pos hc]
        exact ⟨fun _ => hc, fun _ => rfl⟩
      · rw [if_neg hc]
        exact ⟨fun habs => absurd habs (Option.some_ne_none _), fun hout => absurd hout hc⟩
    · intro h1 h2
      rw [hpe, if_neg (by omega)]
    · intro hdur q hq
      rw [hpe] at hq
      by_cases hc : s > now ∨ now > e
      · rw [if_pos hc] at hq
        exact absurd hq.symm (Option.some_ne_none _)
      · rw [if_neg hc] at hq
        have hsn : s ≤ now := by omega
        have hne : now ≤ e := by omega
        have hq' : q = (((now : ℚ) - (s : ℚ)) / (usecPerSec : ℚ)) / (p.duration : ℚ) :=
          (Option.some.inj hq).symm
        have husec : (usecPerSec : ℚ) = 1000000 := by norm_num [usecPerSec]
        have hdq : (0 : ℚ) < (p.duration : ℚ) := by exact_mod_cast hdur
        have hsq : (s : ℚ) ≤ (now : ℚ) := by exact_mod_cast hsn
        have heq : (e : ℚ) = (s : ℚ) + (p.duration : ℚ) * 1000000 := by
          rw [hspread]
          push_cast [usecPerSec]
          ring
        have hneq : (now : ℚ) ≤ (s : ℚ) + (p.duration : ℚ) * 1000000 := by
          rw [← heq]
          exact_mod_cast hne
        have hq2 : q = ((now : ℚ) - (s : ℚ)) / (1000000 * (p.duration : ℚ)) := by
          rw [hq', husec, div_div]
        refine ⟨?_, ?_, ?_⟩
        · rw [hq2]
          apply div_nonneg (by linarith) (by positivity)
        · rw [hq2]
          rw [div_le_one (by positivity)]
          linarith
        · rw [hq2]
          rw [div_eq_one_iff_eq (by positivity)]
          constructor
          · intro hx
            have : (now : ℚ) = (e : ℚ) := by rw [heq]; linarith
            exact_mod_cast this
          · intro hx
            have : (now : ℚ) = (e : ℚ) := by exact_mod_cast hx
            rw [this, heq]
            ring

/-! ## Claim C6 — mode gating -/

/-- C6: an `off`, `set_color` or `set_brightness` command whose source is
not `manual`, arriving for a (real) group whose autoMode is false, is
dropped whole: the store is returned unchanged and no driver call or
broadcast is emitted. -/
theorem C6_mode_gating (st : Store) (c : Command) (night : Bool)
    (hcmd : c.command = "off" ∨ c.command = "set_color" ∨
      c.command = "set_brightness")
    (hsrc : ¬ c.source = "manual") (hgroup : ¬ c.group = 0)
    (hauto : is_group_auto st c.group = false) :
    process_command st c night = (st, []) := by
  unfold process_command
  rw [if_neg hgroup]
  unfold process_one
  rw [if_pos ⟨hcmd, hsrc, hauto⟩]

/-- C6 witness: a `set_brightness` from source `program` for group 2 with
stored autoMode `"False"` leaves the store untouched and emits nothing. -/
theorem C6_witness :
    process_command (Store.empty.set (Key.autoMode 2) "False")
      ⟨"set_brightness", 2, "program", some 40, none⟩ false =
      ((Store.empty.set (Key.autoMode 2) "False"), []) :=
  C6_mode_gating (Store.empty.set (Key.autoMode 2) "False")
    ⟨"set_brightness", 2, "program", some 40, none⟩ false
    (by decide) (by decide) (by decide) (by decide)

/-! ## Claim C5 — broadcast off returns every group to auto mode -/

/-- Processing `{command: off, source: manual}` for one group: the
persisted on-state ends `"False"`, autoMode ends `"True"`, and no other
key changes. -/
theorem process_one_off_manual (st : Store) (g : Nat) (night : Bool) :
    ((process_one st ⟨"off", g, "manual", none, none⟩ night).1.get (Key.onKey g)
        = some "False") ∧
    ((process_one st ⟨"off", g, "manual", none, none⟩ night).1.get (Key.autoMode g)
        = some "True") ∧
    ∀ k, ¬ k = Key.onKey g → ¬ k = Key.autoMode g →
      (process_one st ⟨"off", g, "manual", none, none⟩ night).1.get k = st.get k := by
  have hpo : process_one st ⟨"off", g, "manual", none, none⟩ night =
      (set_auto_mode (set_off st g false).1 g true, (set_off st g false).2) := by
    simp [process_one, dispatch]
  rw [hpo]
  refine ⟨?_, ?_, ?_⟩
  · rw [set_auto_mode, Store.get_set_other _ _ _ _ (by simp)]
    exact run_operation_get_self st g (Key.onKey g) "False" (DriverCall.ledOff g) false
  · rw [set_auto_mode, Store.get_set_self]
    rfl
  · intro k hk1 hk2
    rw [set_auto_mode, Store.get_set_other _ _ _ _ hk2]
    exact run_operation_get_other st g (Key.onKey g) "False"
      (DriverCall.ledOff g) false k hk1

/-- C5: processing `{group: 0, command: off, source: manual}` applies the
off command to every real group 1..4: each group's persisted on-state
ends off (`"False"`) and each group's autoMode is set back to `"True"`. -/
theorem C5_off_all_groups (st : Store) (night : Bool) :
    (((process_command st ⟨"off", 0, "manual", none, none⟩ night).1.get
        (Key.onKey 1) = some "False") ∧
      ((process_command st ⟨"off", 0, "manual", none, none⟩ night).1.get
        (Key.autoMode 1) = some "True")) ∧
    (((process_command st ⟨"off", 0, "manual", none, none⟩ night).1.get
        (Key.onKey 2) = some "False") ∧
      ((process_command st ⟨"off", 0, "manual", none, none⟩ night).1.get
        (Key.autoMode 2) = some "True")) ∧
    (((process_command st ⟨"off", 0, "manual", none, none⟩ night).1.get
        (Key.onKey 3) = some "False") ∧
      ((process_command st ⟨"off", 0, "manual", none, none⟩ night).1.get
        (Key.autoMode 3) = some "True")) ∧
    (((process_command st ⟨"off", 0, "manual", none, none⟩ night).1.get
        (Key.onKey 4) = some "False") ∧
      ((process_command st ⟨"off", 0, "manual", none, none⟩ night).1.get
        (Key.autoMode 4) = some "True")) := by
  have hpc : (process_command st ⟨"off", 0, "manual", none, none⟩ night).1 =
      (process_one
        (process_one
          (process_one
            (process_one st ⟨"off", 1, "manual", none, none⟩ night).1
            ⟨"off", 2, "manual", none, none⟩ night).1
          ⟨"off", 3, "manual", none, none⟩ night).1
        ⟨"off", 4, "manual", none, none⟩ night).1 := by
    simp [process_command]
  obtain ⟨h1on, h1auto, h1f⟩ := process_one_off_manual st 1 night
  obtain ⟨h2on, h2auto, h2f⟩ := process_one_off_manual
    (process_one st ⟨"off", 1, "manual", none, none⟩ night).1 2 night
  obtain ⟨h3on, h3auto, h3f⟩ := process_one_off_manual
    (process_one (process_one st ⟨"off", 1, "manual", none, none⟩ night).1
      ⟨"off", 2, "manual", none, none⟩ night).1 3 night
  obtain ⟨h4on, h4auto, h4f⟩ := process_one_off_manual
    (process_one (process_one (process_one st ⟨"off", 1, "manual", none, none⟩
        night).1 ⟨"off", 2, "manual", none, none⟩ night).1
      ⟨"off", 3, "manual", none, none⟩ night).1 4 night
  rw [hpc]
  refine ⟨⟨?_, ?_⟩, ⟨?_, ?_⟩, ⟨?_, ?_⟩, ⟨?_, ?_⟩⟩
  · rw [h4f _ (by decide) (by decide), h3f _ (by decide) (by decide),
      h2f _ (by decide) (by decide)]
    exact h1on
  · rw [h4f _ (by decide) (by decide), h3f _ (by decide) (by decide),
      h2f _ (by decide) (by decide)]
    exact h1auto
  · rw [h4f _ (by decide) (by decide), h3f _ (by decide) (by decide)]
    exact h2on
  · rw [h4f _ (by decide) (by decide), h3f _ (by decide) (by decide)]
    exact h2auto
  · rw [h4f _ (by decide) (by decide)]
    exact h3on
  · rw [h4f _ (by decide) (by decide)]
    exact h3auto
  · exact h4on
  · exact h4auto

/-! ## Projection lemmas for the driver operations -/

theorem brightness_key_ne_on (c : String) (g g' : Nat) :
    ¬ brightness_key c g = Key.onKey g' := by
  unfold brightness_key
  split <;> simp

theorem brightness_key_ne_color (c : String) (g g' : Nat) :
    ¬ brightness_key c g = Key.colorKey g' := by
  unfold brightness_key
  split <;> simp

theorem set_on_get_self (st : Store) (g : Nat) (force : Bool) :
    ((set_on st g force).1).get (Key.onKey g) = some "True" :=
  run_operation_get_self st g (Key.onKey g) "True" (DriverCall.ledOn g) force

theorem set_color_get_self (st : Store) (c : String) (g : Nat) (force : Bool) :
    ((set_color st c g force).1).get (Key.colorKey g) = some c :=
  run_operation_get_self st g (Key.colorKey g) c (DriverCall.setColorCall c g) force

theorem set_color_get_other (st : Store) (c : String) (g : Nat) (force : Bool)
    (k : Key) (h : ¬ k = Key.colorKey g) :
    ((set_color st c g force).1).get k = st.get k :=
  run_operation_get_other st g (Key.colorKey g) c (DriverCall.setColorCall c g)
    force k h

/-- After `set_brightness`, the slot selected by the PRE-call stored color
holds the clamped stringified value. -/
theorem set_brightness_get_slot (st : Store) (b : Int) (g : Nat) (force : Bool) :
    ((set_brightness st b g force).1).get
        (brightness_key ((st.get (Key.colorKey g)).getD "white") g) =
      some (toString (clamp_brightness b)) :=
  run_operation_get_self st g
    (brightness_key ((st.get (Key.colorKey g)).getD "white") g)
    (toString (clamp_brightness b))
    (DriverCall.setBrightnessCall (clamp_brightness b) g) force

theorem set_brightness_get_other (st : Store) (b : Int) (g : Nat) (force : Bool)
    (k : Key) (h : ∀ c, ¬ k = brightness_key c g) :
    ((set_brightness st b g force).1).get k = st.get k :=
  run_operation_get_other st g
    (brightness_key ((st.get (Key.colorKey g)).getD "white") g)
    (toString (clamp_brightness b))
    (DriverCall.setBrightnessCall (clamp_brightness b) g) force k (h _)

/-! ## Claim C4 — the night command is not forced -/

/-- C4 counterexample: with group 1 already stored as on, red, and rgb
brightness 0, processing `night` performs NO driver call, no store write
and no broadcast — the claim's "always force a full color+brightness
rewrite even when already red" does not hold of the code, which passes no
`force` flag in the night branch. -/
theorem C4_counterexample :
    process_command
        (((Store.empty.set (Key.onKey 1) "True").set (Key.colorKey 1) "red").set
          (Key.rgbBrightness 1) "0")
        ⟨"night", 1, "program", none, none⟩ false =
      ((((Store.empty.set (Key.onKey 1) "True").set (Key.colorKey 1) "red").set
          (Key.rgbBrightness 1) "0"), []) ∧
    countDriver (process_command
        (((Store.empty.set (Key.onKey 1) "True").set (Key.colorKey 1) "red").set
          (Key.rgbBrightness 1) "0")
        ⟨"night", 1, "program", none, none⟩ false).2 = 0 ∧
    countBroadcast (process_command
        (((Store.empty.set (Key.onKey 1) "True").set (Key.colorKey 1) "red").set
          (Key.rgbBrightness 1) "0")
        ⟨"night", 1, "program", none, none⟩ false).2 = 0 := by
  refine ⟨by decide, by decide, by decide⟩

/-- C4 (amended): `night` turns the group on and rewrites it to red with
zero brightness through the normal idempotent, UNFORCED path (adding a
white/zero intermediate step when the stored color is not red): when the
store already records on="True", color="red", rgb_brightness="0", no
driver call, store write or broadcast is made at all; from an empty store
the full five-step unforced driver sequence is issued, with a broadcast
after each step. -/
theorem C4_night :
    (∀ (st : Store) (g : Nat) (night : Bool), ¬ g = 0 →
      st.get (Key.onKey g) = some "True" →
      st.get (Key.colorKey g) = some "red" →
      st.get (Key.rgbBrightness g) = some "0" →
      process_command st ⟨"night", g, "program", none, none⟩ night = (st, [])) ∧
    driverCalls (process_command Store.empty
        ⟨"night", 1, "program", none, none⟩ false).2 =
      [DriverCall.ledOn 1, DriverCall.setColorCall "white" 1,
        DriverCall.setBrightnessCall 0 1, DriverCall.setColorCall "red" 1,
        DriverCall.setBrightnessCall 0 1] ∧
    countBroadcast (process_command Store.empty
        ⟨"night", 1, "program", none, none⟩ false).2 = 5 := by
  refine ⟨?_, by decide, by decide⟩
  intro st g night hg hon hcolor hrgb
  have hgate : process_command st ⟨"night", g, "program", none, none⟩ night =
      night_command st g := by
    unfold process_command
    rw [if_neg hg]
    simp [process_one, dispatch]
  have e1 : set_on st g false = (st, []) :=
    run_operation_skip st g (Key.onKey g) "True" (DriverCall.ledOn g) hon
  have e2 : set_color st "red" g false = (st, []) :=
    run_operation_skip st g (Key.colorKey g) "red"
      (DriverCall.setColorCall "red" g) hcolor
  have e3 : set_brightness st 0 g false = (st, []) := by
    unfold set_brightness
    rw [hcolor]
    exact run_operation_skip st g _ _ _ hrgb
  rw [hgate]
  simp [night_command, e1, e2, e3, hcolor]

/-! ## Claim C7 — auto-triggered -/

/-- C7 counterexample: for a group whose stored autoMode is `"False"`, an
`auto-triggered` command that passes the night/disabled-at-night gate
(here: not night) does NOT turn the group on: the store is unchanged, the
group stays off, and no driver call is made — `run_auto_triggered` has an
additional auto-mode gate the claim omits. -/
theorem C7_counterexample :
    process_command (Store.empty.set (Key.autoMode 1) "False")
        ⟨"auto-triggered", 1, "trigger", none, none⟩ false =
      ((Store.empty.set (Key.autoMode 1) "False"), []) ∧
    is_group_on (process_command (Store.empty.set (Key.autoMode 1) "False")
        ⟨"auto-triggered", 1, "trigger", none, none⟩ false).1 1 = false ∧
    countDriver (process_command (Store.empty.set (Key.autoMode 1) "False")
        ⟨"auto-triggered", 1, "trigger", none, none⟩ false).2 = 0 := by
  refine ⟨by decide, by decide, by decide⟩

/-- C7 (amended): an `auto-triggered` command (source `trigger`) for a
real group that passes the night/disabled-at-night gate AND whose
autoMode is true turns the group on and applies the scheduler's current
default color and default brightness (clamped) to the group's state. -/
theorem C7_auto_triggered (st : Store) (g : Nat) (night : Bool)
    (hg : ¬ g = 0) (hauto : is_group_auto st g = true)
    (hgate : ¬ (night = true ∧ disabled_at_night st g = true)) :
    ((process_command st ⟨"auto-triggered", g, "trigger", none, none⟩ night).1.get
        (Key.onKey g) = some "True") ∧
    ((process_command st ⟨"auto-triggered", g, "trigger", none, none⟩ night).1.get
        (Key.colorKey g) = some (get_default_color st)) ∧
    ((process_command st ⟨"auto-triggered", g, "trigger", none, none⟩ night).1.get
        (brightness_key (get_default_color st) g) =
      some (toString (clamp_brightness (get_default_brightness st)))) := by
  have hpc : process_command st ⟨"auto-triggered", g, "trigger", none, none⟩ night =
      run_auto_triggered st g := by
    unfold process_command
    rw [if_neg hg]
    unfold process_one
    rw [if_neg (by rintro ⟨hcmd, -, -⟩; rcases hcmd with h | h | h <;> simp at h)]
    rw [if_neg (by rintro ⟨-, hm⟩; simp at hm)]
    rw [if_neg (by rintro ⟨-, -, hn, hd⟩; exact hgate ⟨hn, hd⟩)]
    simp [dispatch]
  have hrat : run_auto_triggered st g =
      ((set_brightness
          (set_color (set_on st g false).1 (get_default_color st) g false).1
          (get_default_brightness st) g false).1,
        (set_on st g false).2 ++
          (set_color (set_on st g false).1 (get_default_color st) g false).2 ++
          (set_brightness
            (set_color (set_on st g false).1 (get_default_color st) g false).1
            (get_default_brightness st) g false).2) := by
    unfold run_auto_triggered
    rw [if_neg (by simp [hauto])]
  rw [hpc, hrat]
  have hc2 : ((set_color (set_on st g false).1 (get_default_color st) g
      false).1).get (Key.colorKey g) = some (get_default_color st) :=
    set_color_get_self (set_on st g false).1 (get_default_color st) g false
  refine ⟨?_, ?_, ?_⟩
  · rw [set_brightness_get_other _ _ _ _ _
      (fun c h => brightness_key_ne_on c g g h.symm)]
    rw [set_color_get_other _ _ _ _ _ (by simp)]
    exact set_on_get_self st g false
  · rw [set_brightness_get_other _ _ _ _ _
      (fun c h => brightness_key_ne_color c g g h.symm)]
    exact hc2
  · have hs := set_brightness_get_slot
      (set_color (set_on st g false).1 (get_default_color st) g false).1
      (get_default_brightness st) g false
    rw [hc2] at hs
    simpa using hs

/-- C7 witness: on an empty store (autoMode defaults to true, defaults
white/100), an auto-triggered command for group 1 on a non-night instant
turns the group on with white color at brightness 100. -/
theorem C7_witness :
    ((process_command Store.empty
        ⟨"auto-triggered", 1, "trigger", none, none⟩ false).1.get
      (Key.onKey 1) = some "True") ∧
    ((process_command Store.empty
        ⟨"auto-triggered", 1, "trigger", none, none⟩ false).1.get
      (Key.colorKey 1) = some (get_default_color Store.empty)) ∧
    ((process_command Store.empty
        ⟨"auto-triggered", 1, "trigger", none, none⟩ false).1.get
      (brightness_key (get_default_color Store.empty) 1) =
      some (toString (clamp_brightness (get_default_brightness Store.empty)))) :=
  C7_auto_triggered Store.empty 1 false (by decide) (by decide) (by simp)

/-! ## Claim C8 — set_brightness idempotence -/

/-- C8 counterexample: with the white brightness of group 1 already
persisted as `"50"`, two unforced `set_brightness(50)` invocations in a
row issue NO driver call and NO broadcast at all — not "exactly one" as
the claim states for every double invocation. -/
theorem C8_counterexample :
    (set_brightness (Store.empty.set (Key.whiteBrightness 1) "50") 50 1 false =
      ((Store.empty.set (Key.whiteBrightness 1) "50"), [])) ∧
    countDriver
      ((set_brightness (Store.empty.set (Key.whiteBrightness 1) "50") 50 1
          false).2 ++
        (set_brightness
          (set_brightness (Store.empty.set (Key.whiteBrightness 1) "50") 50 1
            false).1 50 1 false).2) = 0 ∧
    countBroadcast
      ((set_brightness (Store.empty.set (Key.whiteBrightness 1) "50") 50 1
          false).2 ++
        (set_brightness
          (set_brightness (Store.empty.set (Key.whiteBrightness 1) "50") 50 1
            false).1 50 1 false).2) = 0 := by
  refine ⟨by decide, by decide, by decide⟩

/-- C8 (amended): the second of two unforced `set_brightness` calls with
the same value always finds the persisted value for the (group,
brightness-slot) key equal to the new value and skips the driver call,
the store write, and the broadcast; the pair of calls therefore issues
exactly one driver call and one broadcast when the persisted slot value
initially differs from the clamped new value, and none at all when it
already matches. -/
theorem C8_set_brightness_idem (st : Store) (b : Int) (g : Nat) :
    (set_brightness (set_brightness st b g false).1 b g false =
      ((set_brightness st b g false).1, [])) ∧
    (st.get (brightness_key ((st.get (Key.colorKey g)).getD "white") g) =
        some (toString (clamp_brightness b)) →
      set_brightness st b g false = (st, [])) ∧
    (¬ st.get (brightness_key ((st.get (Key.colorKey g)).getD "white") g) =
        some (toString (clamp_brightness b)) →
      countDriver ((set_brightness st b g false).2) = 1 ∧
      countBroadcast ((set_brightness st b g false).2) = 1) := by
  have hcolor2 : ((set_brightness st b g false).1).get (Key.colorKey g) =
      st.get (Key.colorKey g) :=
    set_brightness_get_other st b g false (Key.colorKey g)
      (fun c h => brightness_key_ne_color c g g h.symm)
  refine ⟨?_, ?_, ?_⟩
  · have hslotkey : ((set_brightness st b g false).1).get
        (brightness_key
          (((set_brightness st b g false).1.get (Key.colorKey g)).getD "white") g) =
        some (toString (clamp_brightness b)) := by
      rw [hcolor2]
      exact set_brightness_get_slot st b g false
    exact run_operation_skip (set_brightness st b g false).1 g _ _ _ hslotkey
  · intro h
    exact run_operation_skip st g _ _ _ h
  · intro h
    have happ := run_operation_apply st g
      (brightness_key ((st.get (Key.colorKey g)).getD "white") g)
      (toString (clamp_brightness b))
      (DriverCall.setBrightnessCall (clamp_brightness b) g) h
    have hsb : set_brightness st b g false =
        (st.set (brightness_key ((st.get (Key.colorKey g)).getD "white") g)
          (toString (clamp_brightness b)),
          [Event.driver (DriverCall.setBrightnessCall (clamp_brightness b) g),
            Event.broadcast g (get_lightgroup
              (st.set (brightness_key ((st.get (Key.colorKey g)).getD "white") g)
                (toString (clamp_brightness b))) g)]) := happ
    rw [hsb]
    exact ⟨rfl, rfl⟩

end Lightcontrol
